import Mathlib

/-!
Verification of the step orchestrator in `create_template.py`.

The development shallowly embeds the Python program:
- `TemplateRequest` bundles the eight parameters of `create_template`.
- `buildSteps` is the literal step table built at the top of `create_template`
  (a list of description/command pairs; Python truthiness of the VLAN integer
  and of the cloud-init string becomes an explicit comparison with 0 / "").
- The behaviour of the external `qm` tool is an oracle
  `List String → InvokeOutcome`; `check_call` mirrors
  `subprocess.check_call` (raises `CalledProcessError` exactly on a non-zero
  exit status, `FileNotFoundError` when the executable cannot be launched).
- `runLoopExc` is the `for desc, cmd in steps` loop inside the `try` block,
  recording an event trace (log lines, invocations, progress-bar updates) and
  the first raised exception, after which the loop stops.
- `create_template` wraps the loop with the three `except` handlers of the
  source, producing a `RunResult` with the emitted events, the classified
  failure (if any) and the process-exit the function itself performs (none).
- `main` models the CLI wrapper: argparse results in `Args`, the filesystem
  is an oracle `String → Bool`, and the three validation checks either
  `sys.exit` (with the exact status the source passes) or call
  `create_template`.
-/

set_option maxRecDepth 8192

namespace ProxmoxTemplates

/-- Parameters of `create_template`, as validated by the CLI wrapper. -/
structure TemplateRequest where
  vm_id : Int
  vm_name : String
  vm_vlan : Int
  mem : Int
  cores : Int
  cinit : String
  iso_file : String
  ostype : String
deriving Repr, DecidableEq

/-- The `--net0` value: `"virtio,bridge=vmbr0" + (f",tag={vm_vlan}" if vm_vlan else "")`. -/
def net0Spec (vm_vlan : Int) : String :=
  "virtio,bridge=vmbr0" ++ (if vm_vlan = 0 then "" else ",tag=" ++ toString vm_vlan)

/-- The `steps` list literal of `create_template`, line for line. -/
def buildSteps (r : TemplateRequest) : List (String × List String) :=
  [ ("Creating VM",
      ["qm", "create", toString r.vm_id, "--name", r.vm_name,
       "--ostype", r.ostype, "--tablet", "0"]),
    ("Configuring Network",
      ["qm", "set", toString r.vm_id, "--net0", net0Spec r.vm_vlan,
       "--memory", toString r.mem, "--cores", toString r.cores, "--cpu", "host"]),
    ("Setting ISO",
      ["qm", "set", toString r.vm_id, "--scsi0",
       "local-lvm:0,import-from=" ++ r.iso_file ++ ",discard=on,ssd=1"]),
    ("Configuring Boot",
      ["qm", "set", toString r.vm_id, "--boot", "order=scsi0",
       "--scsihw", "virtio-scsi-single",
       "--agent", "enabled=1,fstrim_cloned_disks=1"]),
    ("Configuring Cloud-Init",
      ["qm", "set", toString r.vm_id, "--ide2", "local-lvm:cloudinit",
       "--ipconfig0", "ip=dhcp"]),
    ("Setting Cloud-Init Customization",
      if r.cinit = "" then []
      else ["qm", "set", toString r.vm_id, "--cicustom",
            "user=local:snippets/" ++ r.cinit]),
    ("Creating Template", ["qm", "template", toString r.vm_id]) ]

/-- Outcome of handing a command line to the operating system. -/
inductive InvokeOutcome where
  | exited (rc : Int)
  | notFound (msg : String)
  | raised (msg : String)
deriving Repr, DecidableEq

/-- The Python exceptions that can escape `subprocess.check_call`. -/
inductive PyExc where
  | calledProcessError (cmd : List String) (rc : Int)
  | fileNotFoundError (msg : String)
  | otherExc (msg : String)
deriving Repr, DecidableEq

/-- Model of `subprocess.check_call`: run the command; raise
`CalledProcessError` exactly when the exit status is non-zero, pass through a
launch failure as `FileNotFoundError`, and any other error unchanged. -/
def check_call (oracle : List String → InvokeOutcome) (cmd : List String) :
    Option PyExc :=
  match oracle cmd with
  | .exited rc => if rc = 0 then none else some (.calledProcessError cmd rc)
  | .notFound m => some (.fileNotFoundError m)
  | .raised m => some (.otherExc m)

/-- Observable events of one run: `logging.info` lines, `logging.error`
lines, `subprocess.check_call` invocations, and `pbar.update(1)` ticks. -/
inductive Event where
  | logInfo (msg : String)
  | logError (msg : String)
  | invoke (cmd : List String)
  | progress
deriving Repr, DecidableEq

/-- The `for desc, cmd in steps` loop inside the `try` block: skip empty
commands, otherwise log, invoke, and update the bar only after the call
returned; stop at the first exception, which propagates with the events
emitted so far. -/
def runLoopExc (oracle : List String → InvokeOutcome) (vm : Int) :
    List (String × List String) → List Event × Option PyExc
  | [] => ([], none)
  | (desc, cmd) :: rest =>
    if cmd.isEmpty then
      let r := runLoopExc oracle vm rest
      (Event.progress :: r.1, r.2)
    else
      match check_call oracle cmd with
      | none =>
        let r := runLoopExc oracle vm rest
        (Event.logInfo (desc ++ " for VM ID " ++ toString vm) ::
           Event.invoke cmd :: Event.progress :: r.1, r.2)
      | some e =>
        ([Event.logInfo (desc ++ " for VM ID " ++ toString vm),
          Event.invoke cmd], some e)

/-- Error classes of the spec, one per `except` clause of the source. -/
inductive FailureKind where
  | commandFailed
  | executableMissing
  | unclassified
deriving Repr, DecidableEq

/-- Rendering of the exception in the interpolated log message. -/
def pyExcStr : PyExc → String
  | .calledProcessError cmd rc =>
      "Command " ++ toString cmd ++ " returned non-zero exit status " ++
        toString rc ++ "."
  | .fileNotFoundError m => m
  | .otherExc m => m

/-- The three `except` clauses of `create_template`, in source order, each
classifying the caught exception and producing its `logging.error` line. -/
def handleExc : PyExc → FailureKind × String
  | .calledProcessError cmd rc =>
      (.commandFailed,
       "An error occurred while creating the template: " ++
         pyExcStr (.calledProcessError cmd rc))
  | .fileNotFoundError m =>
      (.executableMissing, "File not found error: " ++ m)
  | .otherExc m =>
      (.unclassified, "An unexpected error occurred: " ++ m)

/-- What a call of `create_template` produces: the event trace, the
classified failure when one occurred (`none` means overall success), and the
process exit the function itself performed (always `none`: the function has
no `sys.exit`). -/
structure RunResult where
  events : List Event
  failure : Option (FailureKind × String)
  exit : Option Int
deriving Repr, DecidableEq

/-- The final `logging.info` success line. -/
def successMsg (vm : Int) : String :=
  "Template creation for VM ID " ++ toString vm ++ " completed successfully"

/-- The whole of `create_template`: build the step table, run the loop under
`try`, and on an exception let the matching `except` clause classify it and
log; the function always returns normally. -/
def create_template (oracle : List String → InvokeOutcome)
    (r : TemplateRequest) : RunResult :=
  match runLoopExc oracle r.vm_id (buildSteps r) with
  | (evs, none) => ⟨evs ++ [Event.logInfo (successMsg r.vm_id)], none, none⟩
  | (evs, some e) =>
      ⟨evs ++ [Event.logError (handleExc e).2], some (handleExc e), none⟩

/-- Events one step contributes to a successful pass of the loop. -/
def stepBlock (vm : Int) (s : String × List String) : List Event :=
  if s.2.isEmpty then [Event.progress]
  else [Event.logInfo (s.1 ++ " for VM ID " ++ toString vm),
        Event.invoke s.2, Event.progress]

/-- Trace of a fully successful pass over a step list. -/
def traceOf (vm : Int) : List (String × List String) → List Event
  | [] => []
  | s :: rest => stepBlock vm s ++ traceOf vm rest

/-- Number of `pbar.update(1)` ticks in a trace. -/
def progressCount (evs : List Event) : Nat :=
  (evs.filter fun e => match e with | .progress => true | _ => false).length

/-- The commands handed to `subprocess.check_call`, in order. -/
def invokedCmds (evs : List Event) : List (List String) :=
  evs.filterMap fun e => match e with | .invoke c => some c | _ => none

/-- Number of `logging.error` lines in a trace. -/
def errorCount (evs : List Event) : Nat :=
  (evs.filter fun e => match e with | .logError _ => true | _ => false).length

/-- The argparse result of `main`, with its defaults already applied. -/
structure Args where
  vmid : Int
  name : String
  vlan : Int
  memory : Int
  cores : Int
  cinit : String
  iso : String
  ostype : String
deriving Repr, DecidableEq

/-- Model of the Python test `" " in name`. -/
def hasSpace (s : String) : Bool := s.data.contains ' '

/-- Model of `os.path.isabs` on POSIX: the path starts with a slash. -/
def isabs (p : String) : Bool :=
  match p.data with
  | [] => false
  | c :: _ => c == '/'

/-- Splitting a character list at every slash, as `str.split("/")` does. -/
def splitOnSlash : List Char → List (List Char)
  | [] => [[]]
  | c :: rest =>
    let r := splitOnSlash rest
    if c = '/' then [] :: r
    else
      match r with
      | [] => [[c]]
      | h :: t => (c :: h) :: t

/-- Model of `os.path.basename`: the part after the last slash. -/
def basename (p : String) : String :=
  String.mk ((splitOnSlash p.data).getLastD [])

/-- The fixed system ISO storage directory checked by `main`. -/
def iso_dir : String := "/var/lib/vz/template/iso"

/-- The fixed system snippets directory checked by `main`. -/
def snippets_dir : String := "/var/lib/vz/snippets"

/-- How a run of `main` ends: a `sys.exit` with the given status during
validation (Python `sys.exit()` without argument exits with status 0,
`sys.exit(1)` with status 1), or a call of `create_template` and its
result. -/
inductive MainOutcome where
  | exited (code : Int)
  | ran (r : TemplateRequest) (result : RunResult)
deriving Repr, DecidableEq

/-- The pre-checks and dispatch of `main`: reject a name containing a space
via `sys.exit()`; make the ISO path absolute against the working directory;
fall back to the fixed ISO directory and `sys.exit(1)` when the file exists
in neither place; when a cloud-init name was given, `sys.exit(1)` unless it
exists in the snippets directory; otherwise call `create_template`. The
filesystem is the oracle `fs` (`os.path.exists`). -/
def main (fs : String → Bool) (cwd : String)
    (oracle : List String → InvokeOutcome) (args : Args) : MainOutcome :=
  if hasSpace args.name then
    .exited 0
  else
    let iso0 := if isabs args.iso then args.iso else cwd ++ "/" ++ args.iso
    let isoRes : Option String :=
      if fs iso0 then some iso0
      else
        let iso1 := iso_dir ++ "/" ++ basename iso0
        if fs iso1 then some iso1 else none
    match isoRes with
    | none => .exited 1
    | some iso =>
      if args.cinit = "" then
        let r : TemplateRequest :=
          ⟨args.vmid, args.name, args.vlan, args.memory, args.cores,
           args.cinit, iso, args.ostype⟩
        .ran r (create_template oracle r)
      else if fs (snippets_dir ++ "/" ++ args.cinit) then
        let r : TemplateRequest :=
          ⟨args.vmid, args.name, args.vlan, args.memory, args.cores,
           args.cinit, iso, args.ostype⟩
        .ran r (create_template oracle r)
      else
        .exited 1

/-- What strict fail-fast means for one run: the step table splits at the
failing step; every earlier step was a no-op or succeeded; the failing step
was invoked once; the trace holds exactly the earlier blocks plus the failing
step's log line and invocation, so each command was handed to the tool at
most once (nothing re-run, nothing undone) and no later step appears; and
the run is reported as failed with the classified error. -/
def stopsAtFirstFailure (oracle : List String → InvokeOutcome)
    (r : TemplateRequest) (evs : List Event) (e : PyExc) : Prop :=
  ∃ pre d c post,
    buildSteps r = pre ++ (d, c) :: post ∧
    (∀ s ∈ pre, s.2.isEmpty = true ∨ check_call oracle s.2 = none) ∧
    c.isEmpty = false ∧ check_call oracle c = some e ∧
    evs = traceOf r.vm_id pre ++
      [Event.logInfo (d ++ " for VM ID " ++ toString r.vm_id),
       Event.invoke c] ∧
    invokedCmds evs = ((pre.filter fun s => !s.2.isEmpty).map Prod.snd) ++ [c] ∧
    (create_template oracle r).failure = some (handleExc e) ∧
    (create_template oracle r).events = evs ++ [Event.logError (handleExc e).2]

/-- Environment in which every command succeeds. -/
def allOk : List String → InvokeOutcome := fun _ => .exited 0

/-- Environment in which every command exits with status 2. -/
def allFail : List String → InvokeOutcome := fun _ => .exited 2

/-- Environment in which the management tool cannot be launched. -/
def noTool : List String → InvokeOutcome := fun _ => .notFound "qm"

/-- A request with neither VLAN tag nor cloud-init snippet. -/
def sampleReq : TemplateRequest :=
  ⟨9002, "tmpl-ok", 0, 2046, 2, "", "/var/lib/vz/template/iso/debian.iso", "l26"⟩

/-- The same parameter tuple as `sampleReq`, built a second time. -/
def sampleReqCopy : TemplateRequest :=
  ⟨9002, "tmpl-ok", 0, 2046, 2, "", "/var/lib/vz/template/iso/debian.iso", "l26"⟩

/-- A request with a VLAN tag and a cloud-init snippet. -/
def req42 : TemplateRequest :=
  ⟨9003, "tmpl-vlan", 42, 4096, 4, "cloud.yaml",
   "/var/lib/vz/template/iso/debian.iso", "l26"⟩

/-- The spec's step-3 failure scenario: VM 9001, name tmpl-test, a bad ISO
path. -/
def req2 : TemplateRequest :=
  ⟨9001, "tmpl-test", 0, 2046, 2, "", "/nonexistent.iso", "l26"⟩

/-- The command of step 1 for `sampleReq`. -/
def createCmdS : List String :=
  ["qm", "create", "9002", "--name", "tmpl-ok", "--ostype", "l26",
   "--tablet", "0"]

/-- The command of step 1 for `req2`. -/
def createCmd2 : List String :=
  ["qm", "create", "9001", "--name", "tmpl-test", "--ostype", "l26",
   "--tablet", "0"]

/-- The command of step 2 for `req2`. -/
def netCmd2 : List String :=
  ["qm", "set", "9001", "--net0", "virtio,bridge=vmbr0", "--memory", "2046",
   "--cores", "2", "--cpu", "host"]

/-- The command of step 3 for `req2`. -/
def isoCmd2 : List String :=
  ["qm", "set", "9001", "--scsi0",
   "local-lvm:0,import-from=/nonexistent.iso,discard=on,ssd=1"]

/-- Environment in which exactly the step-3 command of `req2` exits
non-zero. -/
def oracle2 : List String → InvokeOutcome := fun cmd =>
  if cmd = isoCmd2 then .exited 1 else .exited 0

/-- CLI arguments whose name contains a space. -/
def argsBad : Args := ⟨101, "my template", 0, 2046, 2, "", "debian.iso", "l26"⟩

/-- CLI arguments with a well-formed name but a missing ISO file. -/
def argsNoIso : Args := ⟨102, "tmpl", 0, 2046, 2, "", "missing.iso", "l26"⟩

/-- CLI arguments with an existing ISO but a missing cloud-init snippet. -/
def argsNoCinit : Args :=
  ⟨103, "tmpl", 0, 2046, 2, "cloud.yaml", "debian.iso", "l26"⟩

/-- A filesystem on which no path exists. -/
def fsNone : String → Bool := fun _ => false

/-- A filesystem holding exactly the resolved ISO of `argsNoCinit`. -/
def fsIsoOnly : String → Bool := fun p => p = "/root/debian.iso"

/-- A run of the loop that raises no exception emits exactly the block of
events of every step, in step order. -/
theorem runLoopExc_none_eq (oracle : List String → InvokeOutcome) (vm : Int) :
    ∀ (steps : List (String × List String)) (evs : List Event),
      runLoopExc oracle vm steps = (evs, none) → evs = traceOf vm steps := by
  intro steps
  induction steps with
  | nil =>
    intro evs h
    simp only [runLoopExc, Prod.mk.injEq] at h
    simp [traceOf, ← h.1]
  | cons s rest ih =>
    obtain ⟨desc, cmd⟩ := s
    intro evs h
    cases hr : runLoopExc oracle vm rest with
    | mk evs0 exc0 =>
      cases hcmd : cmd.isEmpty with
      | true =>
        simp only [runLoopExc, hcmd, if_true, hr, Prod.mk.injEq] at h
        have h0 := ih evs0 (by rw [hr, h.2])
        simp [traceOf, stepBlock, hcmd, ← h.1, h0]
      | false =>
        simp only [runLoopExc, hcmd, Bool.false_eq_true, if_false] at h
        cases hcc : check_call oracle cmd with
        | none =>
          simp only [hcc, hr, Prod.mk.injEq] at h
          have h0 := ih evs0 (by rw [hr, h.2])
          simp [traceOf, stepBlock, hcmd, ← h.1, h0]
        | some e =>
          simp [hcc] at h

/-- A run of the loop that raises an exception splits the step list at a
unique failing step: everything before it either was a no-op or succeeded,
the failing step has a non-empty command on which `check_call` raised, and
the trace is the blocks of the earlier steps followed by the failing step's
log line and invocation (no progress tick for it, nothing for later
steps). -/
theorem runLoopExc_some_eq (oracle : List String → InvokeOutcome) (vm : Int) :
    ∀ (steps : List (String × List String)) (evs : List Event) (e : PyExc),
      runLoopExc oracle vm steps = (evs, some e) →
      ∃ pre d c post,
        steps = pre ++ (d, c) :: post ∧
        (∀ s ∈ pre, s.2.isEmpty = true ∨ check_call oracle s.2 = none) ∧
        c.isEmpty = false ∧ check_call oracle c = some e ∧
        evs = traceOf vm pre ++
          [Event.logInfo (d ++ " for VM ID " ++ toString vm),
           Event.invoke c] := by
  intro steps
  induction steps with
  | nil =>
    intro evs e h
    simp [runLoopExc] at h
  | cons s rest ih =>
    obtain ⟨desc, cmd⟩ := s
    intro evs e h
    cases hr : runLoopExc oracle vm rest with
    | mk evs0 exc0 =>
      cases hcmd : cmd.isEmpty with
      | true =>
        simp only [runLoopExc, hcmd, if_true, hr, Prod.mk.injEq] at h
        obtain ⟨pre, d, c, post, hsteps, hpre, hc, hcc, hevs⟩ :=
          ih evs0 e (by rw [hr, h.2])
        refine ⟨(desc, cmd) :: pre, d, c, post, by simp [hsteps], ?_, hc, hcc, ?_⟩
        · intro s hs
          rcases List.mem_cons.mp hs with hs | hs
          · exact Or.inl (by rw [hs]; exact hcmd)
          · exact hpre s hs
        · simp [traceOf, stepBlock, hcmd, ← h.1, hevs]
      | false =>
        simp only [runLoopExc, hcmd, Bool.false_eq_true, if_false] at h
        cases hcc : check_call oracle cmd with
        | none =>
          simp only [hcc, hr, Prod.mk.injEq] at h
          obtain ⟨pre, d, c, post, hsteps, hpre, hc, hcc2, hevs⟩ :=
            ih evs0 e (by rw [hr, h.2])
          refine ⟨(desc, cmd) :: pre, d, c, post, by simp [hsteps], ?_, hc,
            hcc2, ?_⟩
          · intro s hs
            rcases List.mem_cons.mp hs with hs | hs
            · exact Or.inr (by rw [hs]; exact hcc)
            · exact hpre s hs
          · simp [traceOf, stepBlock, hcmd, ← h.1, hevs]
        | some e0 =>
          simp only [hcc, Prod.mk.injEq, Option.some.injEq] at h
          refine ⟨[], desc, cmd, rest, rfl, by simp, hcmd, ?_, ?_⟩
          · rw [hcc, h.2]
          · simp [traceOf, ← h.1]

/-- The invocations in a trace distribute over concatenation. -/
theorem invokedCmds_append (a b : List Event) :
    invokedCmds (a ++ b) = invokedCmds a ++ invokedCmds b := by
  simp [invokedCmds]

/-- In a fully successful pass, exactly the non-empty commands are handed to
`check_call`, in step order. -/
theorem invokedCmds_traceOf (vm : Int) :
    ∀ steps : List (String × List String),
      invokedCmds (traceOf vm steps) =
        (steps.filter fun s => !s.2.isEmpty).map Prod.snd := by
  intro steps
  induction steps with
  | nil => simp [traceOf, invokedCmds]
  | cons s rest ih =>
    obtain ⟨desc, cmd⟩ := s
    rw [show traceOf vm ((desc, cmd) :: rest) =
          stepBlock vm (desc, cmd) ++ traceOf vm rest from rfl,
        invokedCmds_append, ih]
    cases hcmd : cmd.isEmpty with
    | true => simp [stepBlock, hcmd, invokedCmds, List.filter_cons]
    | false => simp [stepBlock, hcmd, invokedCmds, List.filter_cons]

/-- The progress ticks in a trace distribute over concatenation. -/
theorem progressCount_append (a b : List Event) :
    progressCount (a ++ b) = progressCount a + progressCount b := by
  simp [progressCount]

/-- In a fully successful pass, the bar advances once per step, no-op steps
included. -/
theorem progressCount_traceOf (vm : Int) :
    ∀ steps : List (String × List String),
      progressCount (traceOf vm steps) = steps.length := by
  intro steps
  induction steps with
  | nil => simp [traceOf, progressCount]
  | cons s rest ih =>
    obtain ⟨desc, cmd⟩ := s
    rw [show traceOf vm ((desc, cmd) :: rest) =
          stepBlock vm (desc, cmd) ++ traceOf vm rest from rfl,
        progressCount_append, ih]
    cases hcmd : cmd.isEmpty with
    | true => simp [stepBlock, hcmd, progressCount, Nat.add_comm]
    | false => simp [stepBlock, hcmd, progressCount, Nat.add_comm]

/-- C1: for every step sequence built from a request and every run whose
loop raises an exception, the executor stops at the failing step: the trace
contains exactly one invocation per non-empty step up to and including the
failing one (no later step is invoked, nothing is re-run or undone), and the
run is reported as failed with the classified error and its diagnostic. -/
theorem executor_stops_at_first_failure (oracle : List String → InvokeOutcome)
    (r : TemplateRequest) (evs : List Event) (e : PyExc)
    (h : runLoopExc oracle r.vm_id (buildSteps r) = (evs, some e)) :
    stopsAtFirstFailure oracle r evs e := by
  obtain ⟨pre, d, c, post, hsteps, hpre, hc, hcc, hevs⟩ :=
    runLoopExc_some_eq oracle r.vm_id (buildSteps r) evs e h
  refine ⟨pre, d, c, post, hsteps, hpre, hc, hcc, hevs, ?_, ?_, ?_⟩
  · rw [hevs, invokedCmds_append, invokedCmds_traceOf]
    simp [invokedCmds]
  · simp [create_template, h]
  · simp [create_template, h]

/-- Witness for C1: with every command exiting with status 2, the run of
`sampleReq` stops at step 1. -/
theorem executor_stops_at_first_failure_witness :
    stopsAtFirstFailure allFail sampleReq
      [Event.logInfo "Creating VM for VM ID 9002", Event.invoke createCmdS]
      (PyExc.calledProcessError createCmdS 2) :=
  executor_stops_at_first_failure allFail sampleReq
    [Event.logInfo "Creating VM for VM ID 9002", Event.invoke createCmdS]
    (PyExc.calledProcessError createCmdS 2) rfl

/-- C2, counterexample: in the spec's own scenario (step 3 of `req2` is the
first and only failing step, with exit status 1, so the failure is
classified as CommandFailed and steps 4 to 7 are never invoked) the progress
bar stands at 2 of 7, not at the claimed 3 of 7: `pbar.update(1)` runs only
after `subprocess.check_call` has returned, so the failing step never ticks
the bar. -/
theorem set_iso_failure_progress_counterexample :
    (create_template oracle2 req2).failure.map Prod.fst =
      some FailureKind.commandFailed ∧
    invokedCmds (create_template oracle2 req2).events =
      [createCmd2, netCmd2, isoCmd2] ∧
    ¬ progressCount (create_template oracle2 req2).events = 3 := by
  refine ⟨by decide, by decide, by decide⟩

/-- C2, amended: when step 3 (Set ISO) of `req2` is the first step to fail,
with exit status 1, steps 4 to 7 are never invoked, exactly one failure is
reported and it is classified as CommandFailed, and the progress counter has
advanced to exactly 2 of 7 (the two completed steps; the failing step itself
does not advance the bar) when execution stops. -/
theorem set_iso_failure_behaviour :
    invokedCmds (create_template oracle2 req2).events =
      [createCmd2, netCmd2, isoCmd2] ∧
    errorCount (create_template oracle2 req2).events = 1 ∧
    (create_template oracle2 req2).failure =
      some (FailureKind.commandFailed,
        (handleExc (PyExc.calledProcessError isoCmd2 1)).2) ∧
    progressCount (create_template oracle2 req2).events = 2 := by
  refine ⟨by decide, by decide, by decide, by decide⟩

/-- C3: for every request the step table has exactly 7 steps, whose
descriptions occur in the fixed order Create (Creating VM), Configure
Network (Configuring Network), Set ISO (Setting ISO), Configure Boot
(Configuring Boot), Configure Cloud-Init (Configuring Cloud-Init), Set
Cloud-Init Customization (Setting Cloud-Init Customization), Creating
Template, regardless of the parameter values. -/
theorem step_table_seven_fixed_order (r : TemplateRequest) :
    (buildSteps r).length = 7 ∧
    (buildSteps r).map Prod.fst =
      ["Creating VM", "Configuring Network", "Setting ISO",
       "Configuring Boot", "Configuring Cloud-Init",
       "Setting Cloud-Init Customization", "Creating Template"] :=
  ⟨rfl, rfl⟩

/-- C4: whenever the cloud-init snippet name is the empty string, step 6's
command is empty yet the step keeps its slot: the table still has 7 steps,
and in a run in which the loop raises nothing, the progress counter reaches
7 only after all 7 slots were processed while only the 6 non-empty commands
were ever invoked. -/
theorem empty_cinit_noop_slot (oracle : List String → InvokeOutcome)
    (r : TemplateRequest) (h : r.cinit = "") :
    (buildSteps r).length = 7 ∧
    (buildSteps r)[5]? = some ("Setting Cloud-Init Customization", []) ∧
    ∀ evs, runLoopExc oracle r.vm_id (buildSteps r) = (evs, none) →
      progressCount evs = 7 ∧ (invokedCmds evs).length = 6 := by
  refine ⟨rfl, ?_, ?_⟩
  · simp [buildSteps, h]
  · intro evs hrun
    have he := runLoopExc_none_eq oracle r.vm_id (buildSteps r) evs hrun
    subst he
    constructor
    · rw [progressCount_traceOf]; rfl
    · rw [invokedCmds_traceOf]
      simp [buildSteps, h, List.filter_cons]

/-- Witness for C4: the no-snippet request `sampleReq` under an all-success
environment. -/
theorem empty_cinit_noop_slot_witness :
    (buildSteps sampleReq).length = 7 ∧
    progressCount (traceOf sampleReq.vm_id (buildSteps sampleReq)) = 7 :=
  ⟨(empty_cinit_noop_slot allOk sampleReq rfl).1,
   ((empty_cinit_noop_slot allOk sampleReq rfl).2.2
      (traceOf sampleReq.vm_id (buildSteps sampleReq)) rfl).1⟩

/-- C5: `check_call` raises CalledProcessError exactly on a non-zero exit
status and the first handler classifies it as CommandFailed; a launch
failure raises FileNotFoundError and is classified as ExecutableMissing; any
other error is classified as UnclassifiedFailure; and any two failures of
different kinds always carry different diagnostic lines. -/
theorem failure_classification (cmd : List String) (rc : Int) (m : String) :
    (rc ≠ 0 →
      check_call (fun _ => InvokeOutcome.exited rc) cmd =
        some (PyExc.calledProcessError cmd rc) ∧
      (handleExc (PyExc.calledProcessError cmd rc)).1 =
        FailureKind.commandFailed) ∧
    (check_call (fun _ => InvokeOutcome.notFound m) cmd =
        some (PyExc.fileNotFoundError m) ∧
      (handleExc (PyExc.fileNotFoundError m)).1 =
        FailureKind.executableMissing) ∧
    (check_call (fun _ => InvokeOutcome.raised m) cmd =
        some (PyExc.otherExc m) ∧
      (handleExc (PyExc.otherExc m)).1 = FailureKind.unclassified) ∧
    (∀ e1 e2 : PyExc, (handleExc e1).1 ≠ (handleExc e2).1 →
      (handleExc e1).2 ≠ (handleExc e2).2) := by
  refine ⟨?_, ⟨rfl, rfl⟩, ⟨rfl, rfl⟩, ?_⟩
  · intro hrc
    exact ⟨by simp [check_call, hrc], rfl⟩
  · intro e1 e2 hk
    cases e1 with
    | calledProcessError c1 r1 =>
      cases e2 with
      | calledProcessError c2 r2 => exact absurd rfl hk
      | fileNotFoundError m2 =>
        intro h
        have h2 := congrArg String.data h
        simp [handleExc, pyExcStr, String.data_append] at h2
      | otherExc m2 =>
        intro h
        have h2 := congrArg String.data h
        simp [handleExc, pyExcStr, String.data_append] at h2
    | fileNotFoundError m1 =>
      cases e2 with
      | calledProcessError c2 r2 =>
        intro h
        have h2 := congrArg String.data h
        simp [handleExc, pyExcStr, String.data_append] at h2
      | fileNotFoundError m2 => exact absurd rfl hk
      | otherExc m2 =>
        intro h
        have h2 := congrArg String.data h
        simp [handleExc, pyExcStr, String.data_append] at h2
    | otherExc m1 =>
      cases e2 with
      | calledProcessError c2 r2 =>
        intro h
        have h2 := congrArg String.data h
        simp [handleExc, pyExcStr, String.data_append] at h2
      | fileNotFoundError m2 =>
        intro h
        have h2 := congrArg String.data h
        simp [handleExc, pyExcStr, String.data_append] at h2
      | otherExc m2 => exact absurd rfl hk

/-- Witness for C5: a concrete non-zero exit is CommandFailed, a concrete
launch failure is ExecutableMissing, and their diagnostics differ. -/
theorem failure_classification_witness :
    (handleExc (PyExc.calledProcessError ["qm"] 1)).1 =
      FailureKind.commandFailed ∧
    (handleExc (PyExc.fileNotFoundError "qm")).1 =
      FailureKind.executableMissing ∧
    (handleExc (PyExc.fileNotFoundError "qm")).2 ≠
      (handleExc (PyExc.calledProcessError ["qm"] 1)).2 :=
  ⟨((failure_classification ["qm"] 1 "qm").1 (by decide)).2,
   (failure_classification ["qm"] 1 "qm").2.1.2,
   (failure_classification ["qm"] 1 "qm").2.2.2
     (PyExc.fileNotFoundError "qm") (PyExc.calledProcessError ["qm"] 1)
     (by decide)⟩

/-- C6 is refuted on the name check: a name containing a space makes `main`
call `sys.exit()` with no argument, which exits with status 0, not the
non-zero status the spec requires — while the two path checks do exit with
status 1. All three abort before any external command is invoked (the
outcome is an exit, not a run). -/
theorem validation_abort_statuses :
    main fsNone "/root" allOk argsBad = MainOutcome.exited 0 ∧
    main fsNone "/root" allOk argsNoIso = MainOutcome.exited 1 ∧
    main fsIsoOnly "/root" allOk argsNoCinit = MainOutcome.exited 1 := by
  refine ⟨by decide, by decide, by decide⟩

/-- C7: `create_template` never performs a process exit itself, and whenever
the loop raises an exception the function absorbs it and returns normally
with the classified failure recorded — nothing propagates to its caller. -/
theorem create_template_absorbs_failures
    (oracle : List String → InvokeOutcome) (r : TemplateRequest) :
    (create_template oracle r).exit = none ∧
    ∀ evs e, runLoopExc oracle r.vm_id (buildSteps r) = (evs, some e) →
      create_template oracle r =
        ⟨evs ++ [Event.logError (handleExc e).2], some (handleExc e), none⟩ := by
  constructor
  · cases h : runLoopExc oracle r.vm_id (buildSteps r) with
    | mk evs exc => cases exc <;> simp [create_template, h]
  · intro evs e h
    simp [create_template, h]

/-- Witness for C7: with the management tool missing, the run of `sampleReq`
returns normally with an ExecutableMissing failure and no process exit. -/
theorem create_template_absorbs_failures_witness :
    create_template noTool sampleReq =
      ⟨[Event.logInfo "Creating VM for VM ID 9002", Event.invoke createCmdS,
        Event.logError "File not found error: qm"],
       some (FailureKind.executableMissing, "File not found error: qm"),
       none⟩ :=
  (create_template_absorbs_failures noTool sampleReq).2
    [Event.logInfo "Creating VM for VM ID 9002", Event.invoke createCmdS]
    (PyExc.fileNotFoundError "qm") rfl

/-- C8: the network step's `--net0` value carries no tag argument when the
VLAN parameter is 0 and carries `tag=` followed by the VLAN value when it is
non-zero. -/
theorem vlan_tag_argument (r : TemplateRequest) :
    (buildSteps r)[1]? =
      some ("Configuring Network",
        ["qm", "set", toString r.vm_id, "--net0", net0Spec r.vm_vlan,
         "--memory", toString r.mem, "--cores", toString r.cores,
         "--cpu", "host"]) ∧
    (r.vm_vlan = 0 → net0Spec r.vm_vlan = "virtio,bridge=vmbr0") ∧
    (r.vm_vlan ≠ 0 →
      net0Spec r.vm_vlan = "virtio,bridge=vmbr0,tag=" ++ toString r.vm_vlan) := by
  refine ⟨rfl, ?_, ?_⟩
  · intro h; simp [net0Spec, h]
  · intro h
    simp only [net0Spec, if_neg h, ← String.append_assoc]
    rw [show ("virtio,bridge=vmbr0" ++ ",tag=" : String) =
          "virtio,bridge=vmbr0,tag=" from rfl]

/-- Witness for C8: VLAN 42 yields `tag=42`, VLAN 0 yields no tag. -/
theorem vlan_tag_argument_witness :
    net0Spec req42.vm_vlan = "virtio,bridge=vmbr0,tag=42" ∧
    net0Spec sampleReq.vm_vlan = "virtio,bridge=vmbr0" :=
  ⟨(vlan_tag_argument req42).2.2 (by decide),
   (vlan_tag_argument sampleReq).2.1 rfl⟩

/-- C9: in a run in which every invocation returns, the trace is exactly one
block per step — for a non-empty command a log line naming the step
description and the VM ID immediately followed by the invocation and the
progress tick, for an empty command only the tick — followed by the final
success line naming the VM ID. -/
theorem success_run_trace (oracle : List String → InvokeOutcome)
    (r : TemplateRequest)
    (h : (create_template oracle r).failure = none) :
    (create_template oracle r).events =
      traceOf r.vm_id (buildSteps r) ++
        [Event.logInfo (successMsg r.vm_id)] ∧
    ∀ d c, stepBlock r.vm_id (d, c) =
      if c.isEmpty then [Event.progress]
      else [Event.logInfo (d ++ " for VM ID " ++ toString r.vm_id),
            Event.invoke c, Event.progress] := by
  constructor
  · cases hrun : runLoopExc oracle r.vm_id (buildSteps r) with
    | mk evs exc =>
      cases exc with
      | none =>
        have he := runLoopExc_none_eq oracle r.vm_id (buildSteps r) evs hrun
        simp [create_template, hrun, he]
      | some e => simp [create_template, hrun] at h
  · intro d c
    rfl

/-- Witness for C9: the all-success run of `sampleReq`. -/
theorem success_run_trace_witness :
    (create_template allOk sampleReq).failure = none ∧
    (create_template allOk sampleReq).events =
      traceOf sampleReq.vm_id (buildSteps sampleReq) ++
        [Event.logInfo (successMsg sampleReq.vm_id)] :=
  ⟨rfl, (success_run_trace allOk sampleReq rfl).1⟩

/-- C10: the step table is a deterministic function of the eight-parameter
tuple — two requests that agree field by field build identical tables. -/
theorem buildSteps_deterministic (a b : TemplateRequest)
    (h1 : a.vm_id = b.vm_id) (h2 : a.vm_name = b.vm_name)
    (h3 : a.vm_vlan = b.vm_vlan) (h4 : a.mem = b.mem)
    (h5 : a.cores = b.cores) (h6 : a.cinit = b.cinit)
    (h7 : a.iso_file = b.iso_file) (h8 : a.ostype = b.ostype) :
    buildSteps a = buildSteps b := by
  have hab : a = b := by
    cases a
    cases b
    simp_all
  rw [hab]

/-- Witness for C10: two separately written but equal parameter tuples. -/
theorem buildSteps_deterministic_witness :
    buildSteps sampleReq = buildSteps sampleReqCopy :=
  buildSteps_deterministic sampleReq sampleReqCopy
    rfl rfl rfl rfl rfl rfl rfl rfl

end ProxmoxTemplates
